import Mathlib

/-!
# Verification of the gtd.py card-filtering / review / rendering subsystem

Shallow embedding of the interactive review and filter engine of the
`gtd.py` repository (files `gtd.py` and `todo/display.py`), together with
theorems settling the specification claims about it.

Conventions of the embedding:
* Python truthiness of a list is modelled by non-emptiness, of an optional
  value by `Option.isSome`, of a string by being nonempty.
* Remote API objects (cards, labels, attachments) are modelled by plain
  structures holding the fields the subsystem reads.
* `re.search` over an arbitrary user-supplied pattern is abstracted as a
  boolean-valued parameter `regexSearch pattern text`; nothing proved here
  depends on the matcher itself.
* Exceptions are modelled with explicit result types (`Except` or bespoke
  inductives); an `error` value corresponds to an exception propagating out
  of the modelled function.
-/

namespace Gtd

/-- A Trello label, as read by the filter engine (`l.name`). -/
structure Label where
  name : String
deriving DecidableEq, Repr

/-- A Trello attachment as used by `review_card` (`a['name']`). -/
structure Attachment where
  name : String
deriving DecidableEq, Repr

/-- A Python `datetime.datetime` as far as the display logic observes it:
whether it is timezone-aware, and its instant in seconds.  Subtracting an
aware datetime from a naive one (or vice versa) raises `TypeError`. -/
structure PyDatetime where
  aware : Bool
  seconds : Int
deriving DecidableEq, Repr

/-- A Trello card, holding exactly the fields the embedded subsystem reads:
`id`, `name` (title), `list_labels` (tags), attachments, and the optional
due datetime (`card.due` / `card.due_date`). -/
structure Card where
  id : String
  name : String
  list_labels : List Label
  attachments : List Attachment
  due : Option PyDatetime
deriving DecidableEq, Repr

/-- Source `gtd.py` line 167: `self.magic_value = 'NOTAG'`. -/
def magic_value : String := "NOTAG"

/-- Source `gtd.py` lines 366-370:
```
def filter_card_by_tag(card, tag):
    if card.list_labels:
        return tag in [l.name.decode('utf8') for l in card.list_labels]
    else:
        return False
``` -/
def filter_card_by_tag (card : Card) (tag : String) : Bool :=
  if card.list_labels.isEmpty then false
  else (card.list_labels.map Label.name).contains tag

/-- The list of filter closures built by `TrelloWrapper.get_cards`
(`gtd.py` lines 222-234), in the order the Python code appends them.
`regexSearch` abstracts `re.search` (pattern, text).  Python truthiness of
the optional string arguments is respected: `None` and `''` add no filter. -/
def gtdFilters (regexSearch : String → String → Bool)
    (tag : Option String) (title_regex : Option String)
    (filterspec : Option (Card → Bool))
    (has_attachments : Bool) (has_due_date : Bool) : List (Card → Bool) :=
  (show List (Card → Bool) from
    match tag with
    | some t =>
      if t = magic_value then [fun c => c.list_labels.isEmpty]
      else if t = "" then []
      else [fun c => filter_card_by_tag c t]
    | none => []) ++
  (show List (Card → Bool) from
    match title_regex with
    | some p => if p = "" then [] else [fun c => regexSearch p c.name]
    | none => []) ++
  (show List (Card → Bool) from
    match filterspec with
    | some f => [f]
    | none => []) ++
  (if has_attachments then [fun c => !c.attachments.isEmpty] else []) ++
  (if has_due_date then [fun c => (Card.due c).isSome] else [])

/-- The acceptance loop of `get_cards` (`gtd.py` lines 236-239):
```
keep = True
for f in filters:
    if not f(card):
        keep = False
```
Every filter is evaluated; there is no short-circuit. -/
def keepCard (filters : List (Card → Bool)) (c : Card) : Bool :=
  filters.foldl (fun keep f => if !(f c) then false else keep) true

/-- Embeds `TrelloWrapper.get_cards` (`gtd.py` lines 218-241), with the card
source already fetched into `source` (the generator is modelled as the
sub-list of cards it yields, in order). -/
def get_cards (regexSearch : String → String → Bool) (source : List Card)
    (tag : Option String) (title_regex : Option String)
    (filterspec : Option (Card → Bool))
    (has_attachments : Bool) (has_due_date : Bool) : List Card :=
  source.filter
    (keepCard (gtdFilters regexSearch tag title_regex filterspec
      has_attachments has_due_date))

/-- Embeds `perform_command` (`gtd.py` line 438):
`tag = wrapper.magic_value if args.no_tag else args.tag if args.tag else None`. -/
def perform_command_tag (no_tag : Bool) (tag_arg : Option String) : Option String :=
  if no_tag then some magic_value
  else match tag_arg with
       | some t => if t = "" then none else some t
       | none => none

/-! ## Review menu header and the open-attachment branch (`gtd.py` 309-359) -/

/-- Source `Colors.esc` (`gtd.py` line 24): the ASCII escape character. -/
def Colors.esc : String := "\x1b"

/-- Source `Colors.green` (`gtd.py` line 27). -/
def Colors.green : String := Colors.esc ++ "[0;32m"

/-- Source `Colors.red` (`gtd.py` line 26). -/
def Colors.red : String := Colors.esc ++ "[0;31m"

/-- Source `Colors.yellow` (`gtd.py` line 28). -/
def Colors.yellow : String := Colors.esc ++ "[0;33m"

/-- Source `Colors.reset` (`gtd.py` line 33). -/
def Colors.reset : String := Colors.esc ++ "[0m"

/-- The fully formatted base menu header of `review_card`
(`gtd.py` lines 313-323), after the `.format(Colors)` substitution. -/
def review_header_base : String :=
  Colors.green ++ "D" ++ Colors.reset ++ "elete, " ++
  Colors.green ++ "T" ++ Colors.reset ++ "ag, " ++
  Colors.green ++ "A" ++ Colors.reset ++ "ttach Title, " ++
  Colors.green ++ "P" ++ Colors.reset ++ "rint Card, " ++
  Colors.green ++ "R" ++ Colors.reset ++ "ename, " ++
  "d" ++ Colors.green ++ "U" ++ Colors.reset ++ "e Date, " ++
  Colors.green ++ "M" ++ Colors.reset ++ "ove, " ++
  Colors.green ++ "S" ++ Colors.reset ++ "kip, " ++
  Colors.green ++ "Q" ++ Colors.reset ++ "uit"

/-- Source `gtd.py` lines 324-325: the `Open attachment` entry is prepended to the
header exactly when `card.get_attachments()` is truthy. -/
def review_header (hasAttachments : Bool) : String :=
  if hasAttachments then
    Colors.green ++ "O" ++ Colors.reset ++ "pen attachment, " ++ review_header_base
  else review_header_base

/-- Substring occurrence on character lists (Python `needle in haystack`
for strings). -/
def strIn (needle : List Char) : List Char → Bool
  | [] => needle.isEmpty
  | c :: rest => needle.isPrefixOf (c :: rest) || strIn needle rest

/-- Result of the `O` branch of `review_card`. -/
inductive OpenAttachmentResult where
  | errorMessage (msg : String)
  | opened (urls : List String)
deriving DecidableEq, Repr

/-- The `elif choice == 'O'` branch of `review_card` (`gtd.py` 352-357):
```
if 'link' not in header:
    print('This card does not have an attachment!')
else:
    for l in [a['name'] for a in card.get_attachments()]:
        webbrowser.open(l)
``` -/
def open_attachment_branch (card : Card) : OpenAttachmentResult :=
  let header := review_header (!card.attachments.isEmpty)
  if !(strIn "link".data header.data) then
    .errorMessage "This card does not have an attachment!"
  else
    .opened (card.attachments.map Attachment.name)

/-! ## The review state machine (`gtd.py` 309-363) and the exit-code logic
of the `__main__` guard (`gtd.py` 566-574) -/

/-- The single-character commands recognised by the `review_card` menu
(after `.strip().upper()`); `invalid` stands for any other input. -/
inductive Cmd where
  | D | T | A | P | R | U | M | Q | S | O | invalid
deriving DecidableEq, Repr

/-- Remote mutation calls `review_card` and its sub-flows can issue. -/
inductive RemoteCall where
  | delete (cardId : String)
  | addLabel (cardId : String) (label : String)
  | setName (cardId : String) (name : String)
  | setDue (cardId : String)
  | changeList (cardId : String) (listId : String)
  | attachUrl (cardId : String) (url : String)
deriving DecidableEq, Repr

/-- How one run of the `review_card` loop ends for its card. -/
inductive ReviewOutcome where
  | cardDone          -- the `while` loop exits (`S`, `D`, or `M` break)
  | sessionAborted    -- `Q` raised `GTDException`
  | inputExhausted    -- the input stream ended (the user would keep being prompted)
deriving DecidableEq, Repr

/-- Embeds `TrelloWrapper.review_card` (`gtd.py` 309-359) on a stream of menu
commands.  Returns the remote mutation calls issued, how the loop ended,
and the commands left for the rest of the batch.

The interactive sub-flows reached from the `T` (add_labels), `A`
(title_to_link), `R` (rename), `U` (set_due_date) and `M` (move_to_list)
branches run their own prompts; their remote mutation calls are abstracted
by the parameter `sub` (they are never invoked by the claims settled
below).  Faithful control flow: `D` deletes and breaks, `M` moves and
breaks (`move_to_list` returns a truthy list object), `Q` raises
`GTDException`, `S` falls through and the `while choice != 'S' and choice
!= 'D'` condition then exits the loop; `P`, `O` and unrecognised input
print only (the `O` branch never opens anything, see
`open_attachment_branch`) and re-enter the loop. -/
def review_card (sub : Cmd → Card → List RemoteCall) (card : Card) :
    List Cmd → List RemoteCall × ReviewOutcome × List Cmd
  | [] => ([], .inputExhausted, [])
  | c :: rest =>
    match c with
    | .D => ([RemoteCall.delete card.id], .cardDone, rest)
    | .Q => ([], .sessionAborted, rest)
    | .S => ([], .cardDone, rest)
    | .M => (sub .M card, .cardDone, rest)
    | .T =>
      let r := review_card sub card rest
      (sub .T card ++ r.1, r.2.1, r.2.2)
    | .A =>
      let r := review_card sub card rest
      (sub .A card ++ r.1, r.2.1, r.2.2)
    | .R =>
      let r := review_card sub card rest
      (sub .R card ++ r.1, r.2.1, r.2.2)
    | .U =>
      let r := review_card sub card rest
      (sub .U card ++ r.1, r.2.1, r.2.2)
    | .P => review_card sub card rest
    | .O => review_card sub card rest
    | .invalid => review_card sub card rest

/-- How a whole review batch ends. -/
inductive BatchOutcome where
  | completed       -- every card's loop finished
  | aborted         -- `GTDException` propagated out of `review_list`
  | inputExhausted
deriving DecidableEq, Repr

/-- Embeds `TrelloWrapper.review_list` (`gtd.py` 361-363):
`for card in cards: self.review_card(card, display_function)`, with the
command stream threaded through the cards.  A `GTDException` raised by
`review_card` propagates and aborts the remaining batch. -/
def review_list (sub : Cmd → Card → List RemoteCall) :
    List Card → List Cmd → List RemoteCall × BatchOutcome
  | [], _ => ([], .completed)
  | card :: cards, cmds =>
    let r := review_card sub card cmds
    match r.2.1 with
    | .cardDone =>
      let rest := review_list sub cards r.2.2
      (r.1 ++ rest.1, rest.2)
    | .sessionAborted => (r.1, .aborted)
    | .inputExhausted => (r.1, .inputExhausted)

/-- How the process run ends, as observed by the `__main__` guard. -/
inductive MainTermination where
  | normal
  | keyboardInterrupt
  | gtdException
deriving DecidableEq, Repr

/-- The `__main__` guard (`gtd.py` 566-574): `KeyboardInterrupt` gives
`sys.exit(0)`, `GTDException` prints `Quitting due to error` and gives
`sys.exit(1)`, and falling off `main()` exits 0. -/
def process_exit_code : MainTermination → Nat
  | .normal => 0
  | .keyboardInterrupt => 0
  | .gtdException => 1

/-- How a batch outcome surfaces at the `__main__` guard: an aborted batch
means a `GTDException` reached the top level; a completed one returns
normally.  (An exhausted input stream is not a Python event; it maps to
the process blocking on input, modelled as `normal` never reached — we
map it to `normal` as it issues no exit.) -/
def termination_of_batch : BatchOutcome → MainTermination
  | .completed => .normal
  | .aborted => .gtdException
  | .inputExhausted => .normal

/-- Exit code of a review session over `cards` driven by `cmds`. -/
def review_session_exit_code (sub : Cmd → Card → List RemoteCall)
    (cards : List Card) (cmds : List Cmd) : Nat :=
  process_exit_code (termination_of_batch (review_list sub cards cmds).2)

/-! ## Structured (JSON) export: `JSONDisplay.__exit__` (`gtd.py` 120-126)
and the JSON path of `Display.show_cards` (`todo/display.py` 115-118) -/

/-- Shape of the top-level JSON value printed by an export.  The
per-card serialisation (`_normalize` / `_force_json`) is abstracted: each
card is represented by itself. -/
inductive JsonOut where
  | single (c : Card)
  | array (cs : List Card)
deriving DecidableEq, Repr

/-- Embeds `JSONDisplay.__exit__` (`gtd.py` line 121):
`items = self.items[0] if len(self.items) == 1 else self.items`, then
`json.dumps(items)`. -/
def jsonDisplay_exit (items : List Card) : JsonOut :=
  if h : items.length = 1 then .single (items.get ⟨0, by omega⟩)
  else .array items

/-! ## Tabular rendering: `Display.show_cards` and
`Display.resize_and_get_table` (`todo/display.py` 104-154) -/

/-- The insertion order of `Display.build_fields` (`todo/display.py`
37-48), which fixes the column order of the table. -/
def build_fields_order : List String :=
  ["name", "list", "tags", "desc", "due", "activity", "board", "id", "url"]

/-- Source `todo/display.py` line 147: the fields removed by
`resize_and_get_table`, in increasing order of importance:
`to_remove = ['desc', 'id', 'board', 'url', 'activity', 'list']`. -/
def to_remove_order : List String :=
  ["desc", "id", "board", "url", "activity", "list"]

/-- The `while` loop of `resize_and_get_table` (`todo/display.py`
149-153), returning the set of fields of the final rendered table:
```
while len(possible.splitlines()[0]) >= maxwidth and to_remove:
    fset.remove(to_remove.pop(0))
    possible = table.get_string(fields=list(fset))
```
`width fs` abstracts the width of the first line of
`table.get_string(fields=fs)` (a function of which fields remain). -/
def resize_fields (width : List String → Nat) (maxwidth : Nat) :
    List String → List String → List String
  | fset, [] => fset
  | fset, r :: rs =>
    if maxwidth ≤ width fset then
      resize_fields width maxwidth (fset.erase r) rs
    else fset

/-- Outcome of `Display.show_cards` (`todo/display.py` 104-140), keeping
the data the claims are about: the JSON value printed, the
`GTDException(1)` raised on an empty table, or the field set of the table
printed. -/
inductive ShowCardsResult where
  | jsonOut (j : JsonOut)
  | noCardsError
  | tableOut (fields : List String)
deriving DecidableEq, Repr

/-- Embeds `Display.show_cards` (`todo/display.py` 104-140): the `use_json`
branch dumps the (sanitised) card list; otherwise an empty table raises
`GTDException(1)`; otherwise an explicit non-empty `table_fields` subset
is printed as-is, else `resize_and_get_table` elides columns.  (`tsv` only
changes the table style, not which columns survive, and is omitted.) -/
def show_cards (width : List String → Nat) (maxwidth : Nat)
    (use_json : Bool) (cards : List Card) (table_fields : List String) :
    ShowCardsResult :=
  if use_json then .jsonOut (.array cards)
  else if cards.isEmpty then .noCardsError
  else if !table_fields.isEmpty then .tableOut table_fields
  else .tableOut (resize_fields width maxwidth build_fields_order to_remove_order)

/-! ## The remaining-time-to-due line of the detail view
(`gtd.py` 77-90 / `todo/display.py` 201-214, identical logic) -/

/-- The colors the remaining-time line can take. -/
inductive DueColor where
  | red | yellow | green
deriving DecidableEq, Repr

/-- Python `datetime` subtraction: an aware and a naive operand raise
`TypeError`; otherwise the difference in seconds. -/
def pyDatetimeSub (a b : PyDatetime) : Except Unit Int :=
  if a.aware = b.aware then .ok (a.seconds - b.seconds) else .error ()

/-- Python `datetime.timedelta(weeks=2)` in seconds. -/
def two_weeks_seconds : Int := 1209600

/-- What the detail view prints for the remaining-time line. -/
inductive RemainingLine where
  | omitted
  | shown (col : DueColor) (diffSeconds : Int)
deriving DecidableEq, Repr

/-- The due-date block of the single-card detail view (`gtd.py` 77-90,
identically `todo/display.py` 201-214):
```
if card.due:
    try:
        diff = card.due_date - datetime.datetime.now(datetime.timezone.utc)
        if diff < datetime.timedelta(0): display = Colors.red
        elif diff < datetime.timedelta(weeks=2): display = Colors.yellow
        else: display = Colors.green
        ...
    except TypeError:
        pass
```
`now` is the (timezone-aware) current datetime. -/
def show_remaining (card : Card) (now : PyDatetime) : RemainingLine :=
  match card.due with
  | none => .omitted
  | some dd =>
    match pyDatetimeSub dd now with
    | .error _ => .omitted
    | .ok diff =>
      .shown
        (if diff < 0 then DueColor.red
         else if diff < two_weeks_seconds then DueColor.yellow
         else DueColor.green)
        diff

/-! ## `set_due_date` (`gtd.py` 261-269) -/

/-- Decimal-digit test on a character (regex class `[0-9]`). -/
def isDigitCh (c : Char) : Bool := 48 ≤ c.toNat && c.toNat ≤ 57

/-- Python `re.match('^[0-9]{2}\\/[0-9]{2}\\/[0-9]{4}$', s)` as a predicate on the
stripped input string: exactly `DD/MM/YYYY` shaped. -/
def matches_due_regex (s : String) : Bool :=
  match s.data with
  | [d1, d2, s1, m1, m2, s2, y1, y2, y3, y4] =>
    isDigitCh d1 && isDigitCh d2 && s1 = '/' &&
    isDigitCh m1 && isDigitCh m2 && s2 = '/' &&
    isDigitCh y1 && isDigitCh y2 && isDigitCh y3 && isDigitCh y4
  | _ => false

/-- Numeric value of a digit character. -/
def digitVal (c : Char) : Nat := c.toNat - 48

/-- Python `int(x)` for the two-digit fragments of the date string. -/
def parse2 (a b : Char) : Nat := 10 * digitVal a + digitVal b

/-- Python `int(x)` for the four-digit year fragment. -/
def parse4 (a b c d : Char) : Nat :=
  1000 * digitVal a + 100 * digitVal b + 10 * digitVal c + digitVal d

/-- Python `date_args = [int(x) for x in input_date.split('/')[::-1]]` on a
string matching the regex: `(year, month, day)` from the `DD/MM/YYYY`
positions. -/
def date_args_of (s : String) : Nat × Nat × Nat :=
  let cs := s.data
  (parse4 (cs.getD 6 '0') (cs.getD 7 '0') (cs.getD 8 '0') (cs.getD 9 '0'),
   parse2 (cs.getD 3 '0') (cs.getD 4 '0'),
   parse2 (cs.getD 0 '0') (cs.getD 1 '0'))

/-- Gregorian leap-year rule used by Python `datetime`. -/
def isLeapYear (y : Nat) : Bool := y % 4 = 0 && (y % 100 ≠ 0 || y % 400 = 0)

/-- Days in a month per Python `datetime`. -/
def days_in_month (y m : Nat) : Nat :=
  if m = 2 then (if isLeapYear y then 29 else 28)
  else if m = 4 || m = 6 || m = 9 || m = 11 then 30
  else 31

/-- The range checks of the `datetime.datetime(year, month, day)`
constructor (`MINYEAR = 1`, `MAXYEAR = 9999`); outside them it raises
`ValueError`. -/
def datetime_ctor_valid (y m d : Nat) : Bool :=
  1 ≤ y && y ≤ 9999 && 1 ≤ m && m ≤ 12 && 1 ≤ d && d ≤ days_in_month y m

/-- How a call to `set_due_date` ends. -/
inductive SetDueResult where
  | ok (y m d : Nat)   -- `card.set_due(datetime(...))` runs; returns the date
  | valueError         -- `datetime(...)` raised `ValueError`; uncaught, the process aborts
  | ranOutOfInput      -- the prompt loop is still asking for a date
deriving DecidableEq, Repr

/-- Embeds `TrelloWrapper.set_due_date` (`gtd.py` 261-269) over the stream of
(stripped) strings the user types:
```
input_date = ''
while not re.match('^[0-9]{2}\\/[0-9]{2}\\/[0-9]{4}$', input_date):
    input_date = input(...).strip()
date_args = [int(x) for x in input_date.split('/')[::-1]]
input_datetime = datetime.datetime(*date_args, tzinfo=datetime.timezone.utc)
card.set_due(input_datetime)
```
The loop only re-prompts on a regex mismatch; the `ValueError` a
shape-correct but calendar-invalid date raises is not caught anywhere on
the call path (`review_card` → `review_list` → `perform_command` →
`main`). -/
def set_due_date : List String → SetDueResult
  | [] => .ranOutOfInput
  | s :: rest =>
    if matches_due_regex s then
      let a := date_args_of s
      if datetime_ctor_valid a.1 a.2.1 a.2.2 then .ok a.1 a.2.1 a.2.2
      else .valueError
    else set_due_date rest

/-! ## `quickmove` (`gtd.py` 416-432) -/

/-- Source `preferred_keys = ['a', 's', 'd', 'f', 'g', 'h', 'j', 'k', 'l', ';', "'"]`
(`gtd.py` line 423); the final entry is the apostrophe character. -/
def preferred_keys : List Char :=
  ['a', 's', 'd', 'f', 'g', 'h', 'j', 'k', 'l', ';', Char.ofNat 39]

/-- Source `remainder = list(set(preferred_keys) - set(string.ascii_lowercase))`
(`gtd.py` line 424): the non-letter members of `preferred_keys`, in one of
the orders the Python set can yield (the order is unobservable below: only
options beyond the eleventh would consult it). -/
def quickmove_remainder : List Char := [';', Char.ofNat 39]

/-- Source `all_keys = preferred_keys + remainder` (`gtd.py` line 425). -/
def all_keys : List Char := preferred_keys ++ quickmove_remainder

/-- The `lookup` dict built by the enumeration loop of `quickmove`
(`gtd.py` 426-428): `lookup[all_keys[idx]] = idx` for each option index,
with later assignments overriding earlier ones (dict semantics). -/
def quickmove_lookup (numOptions : Nat) : Char → Option Nat :=
  (List.range numOptions).foldl
    (fun acc idx => fun k => if k = all_keys.getD idx ' ' then some idx else acc k)
    (fun _ => none)

/-- Embeds `quickmove` (`gtd.py` 416-432) after the keystroke `req` was read:
`return list(iterable)[int(lookup.get(req, None))]`.  A keystroke bound in
`lookup` indexes the options; an unbound one makes `lookup.get` return
`None`, and `int(None)` raises `TypeError` (modelled as `.error`).  The
guard on the option count models the `IndexError` the printing loop would
raise on `all_keys[idx]` for more options than keys. -/
def quickmove (options : List String) (req : Char) : Except String String :=
  if all_keys.length < options.length then .error "IndexError"
  else
    match quickmove_lookup options.length req with
    | none => .error "TypeError: int() argument must not be None"
    | some idx =>
      match options.get? idx with
      | some o => .ok o
      | none => .error "IndexError"

/-! ## Auxiliary definitions and concrete fixtures -/

/-- Erase the named fields from a field list, first to last (the
cumulative effect of the removal loop of `resize_and_get_table`). -/
def erase_fields (fset : List String) (rem : List String) : List String :=
  rem.foldl List.erase fset

/-- A plain card with no tags, attachments, or due date. -/
def sampleCard : Card :=
  { id := "card1", name := "a task", list_labels := [], attachments := [], due := none }

/-- A card that carries one attachment. -/
def attachmentCard : Card :=
  { id := "card2", name := "with attachment", list_labels := [],
    attachments := [{ name := "http://example.com/a" }], due := none }

/-- A card that carries a label literally named `NOTAG`. -/
def notagLabelCard : Card :=
  { id := "card3", name := "labelled notag", list_labels := [{ name := "NOTAG" }],
    attachments := [], due := none }

/-- A card carrying the tag `work` and a due date (timezone-aware,
5 seconds before the reference instant). -/
def dueWorkCard : Card :=
  { id := "card4", name := "due work", list_labels := [{ name := "work" }],
    attachments := [], due := some { aware := true, seconds := -5 } }

/-! ## Helper lemmas -/

/-- The Python `keep` loop of `get_cards` computes the conjunction of all
filters: no filter is skipped and none can rescue a card another filter
rejected. -/
theorem keep_fold_eq (c : Card) (l : List (Card → Bool)) (b : Bool) :
    l.foldl (fun keep f => if !(f c) then false else keep) b
      = (b && l.all (fun f => f c)) := by
  induction l generalizing b with
  | nil => simp
  | cons f t ih =>
    rw [List.foldl_cons, List.all_cons, ih]
    cases hf : f c <;> cases b <;> simp

theorem keepCard_eq_all (fs : List (Card → Bool)) (c : Card) :
    keepCard fs c = fs.all (fun f => f c) := by
  unfold keepCard
  rw [keep_fold_eq]
  simp

/-- Fact: `List.all` is invariant under permutation of the list. -/
theorem all_of_perm {α : Type} {l₁ l₂ : List α} (h : l₁.Perm l₂) (p : α → Bool) :
    l₁.all p = l₂.all p := by
  rw [Bool.eq_iff_iff, List.all_eq_true, List.all_eq_true]
  exact ⟨fun hA x hx => hA x (h.mem_iff.mpr hx), fun hA x hx => hA x (h.mem_iff.mp hx)⟩

/-- Unrolling of the removal loop of `resize_and_get_table`: the result is
always the starting field set minus some prefix of the removal list, every
field set seen before the last removal was too wide, and if the loop
stopped before exhausting the removal list the final table fits. -/
theorem resize_fields_spec (width : List String → Nat) (maxwidth : Nat)
    (fset rem : List String) :
    ∃ k, k ≤ rem.length ∧
      resize_fields width maxwidth fset rem = erase_fields fset (rem.take k) ∧
      (∀ j, j < k → maxwidth ≤ width (erase_fields fset (rem.take j))) ∧
      (k < rem.length → width (erase_fields fset (rem.take k)) < maxwidth) := by
  induction rem generalizing fset with
  | nil =>
    exact ⟨0, Nat.le_refl 0, by simp [resize_fields, erase_fields],
      fun j hj => absurd hj (by omega), by simp⟩
  | cons r rs ih =>
    by_cases h : maxwidth ≤ width fset
    · obtain ⟨k, hk, heq, hge, hlt⟩ := ih (fset.erase r)
      refine ⟨k + 1, by simpa using hk, ?_, ?_, ?_⟩
      · rw [show resize_fields width maxwidth fset (r :: rs)
              = resize_fields width maxwidth (fset.erase r) rs from by
            simp [resize_fields, h]]
        rw [heq]
        simp [erase_fields, List.take_succ_cons]
      · intro j hj
        cases j with
        | zero => simpa [erase_fields] using h
        | succ j =>
          have := hge j (by omega)
          simpa [erase_fields, List.take_succ_cons] using this
      · intro hlen
        have := hlt (by simpa using Nat.lt_of_succ_lt_succ hlen)
        simpa [erase_fields, List.take_succ_cons] using this
    · refine ⟨0, Nat.zero_le _, ?_, fun j hj => absurd hj (by omega), ?_⟩
      · simp [resize_fields, h, erase_fields]
      · intro _
        simpa [erase_fields] using not_le.mp h

/-- A field not named in the removal list survives `erase_fields`. -/
theorem mem_erase_fields {x : String} {rem fset : List String}
    (hx : x ∈ fset) (hrem : x ∉ rem) : x ∈ erase_fields fset rem := by
  induction rem generalizing fset with
  | nil => simpa [erase_fields] using hx
  | cons r rs ih =>
    rw [List.mem_cons, not_or] at hrem
    exact ih ((List.mem_erase_of_ne hrem.1).mpr hx) hrem.2

/-- Inputs failing the `DD/MM/YYYY` shape regex are consumed by the
re-prompt loop of `set_due_date` without any other effect. -/
theorem set_due_date_skips (pre tail : List String)
    (hpre : ∀ x ∈ pre, matches_due_regex x = false) :
    set_due_date (pre ++ tail) = set_due_date tail := by
  induction pre with
  | nil => rfl
  | cons p ps ih =>
    have hp := hpre p (by simp)
    rw [List.cons_append]
    simp only [set_due_date, hp, Bool.false_eq_true, if_false]
    exact ih fun x hx => hpre x (by simp [hx])

/-- The `lookup` dict of `quickmove` has no entry for a keystroke that was
assigned to no option. -/
theorem quickmove_lookup_eq_none (req : Char) (n : Nat)
    (h : ∀ i, i < n → all_keys.getD i ' ' ≠ req) :
    quickmove_lookup n req = none := by
  induction n with
  | zero => rfl
  | succ n ih =>
    unfold quickmove_lookup
    rw [List.range_succ, List.foldl_append]
    simp only [List.foldl_cons, List.foldl_nil]
    have hne : ¬(req = all_keys.getD n ' ') :=
      fun he => (h n (Nat.lt_succ_self n)) he.symm
    simp only [hne, if_false]
    exact ih fun i hi => h i (Nat.lt_succ_of_lt hi)

/-! ## Claim theorems -/

/-- C1: for every card source and every non-empty set of active filters,
`get_cards` yields exactly the cards accepted by every individual active
filter — its output set equals the intersection of the filters'
individually-accepted card sets — and the output is invariant under any
permutation of the filter list. -/
theorem C1_get_cards_is_filter_intersection
    (regexSearch : String → String → Bool) (tag title_regex : Option String)
    (filterspec : Option (Card → Bool)) (has_attachments has_due_date : Bool)
    (source : List Card)
    (hne : gtdFilters regexSearch tag title_regex filterspec has_attachments has_due_date ≠ []) :
    (∀ c, c ∈ get_cards regexSearch source tag title_regex filterspec
            has_attachments has_due_date ↔
          ∀ f ∈ gtdFilters regexSearch tag title_regex filterspec
                  has_attachments has_due_date,
            c ∈ source.filter f) ∧
    (∀ fs₂, (gtdFilters regexSearch tag title_regex filterspec
              has_attachments has_due_date).Perm fs₂ →
       source.filter (keepCard fs₂) =
         get_cards regexSearch source tag title_regex filterspec
           has_attachments has_due_date) := by
  set fs := gtdFilters regexSearch tag title_regex filterspec
    has_attachments has_due_date with hfs
  constructor
  · intro c
    simp only [get_cards, ← hfs, List.mem_filter, keepCard_eq_all, List.all_eq_true]
    constructor
    · rintro ⟨hc, hall⟩ f hf
      exact ⟨hc, hall f hf⟩
    · intro hA
      obtain ⟨f₀, hf₀⟩ := List.exists_mem_of_ne_nil fs hne
      exact ⟨(hA f₀ hf₀).1, fun f hf => (hA f hf).2⟩
  · intro fs₂ hperm
    simp only [get_cards, ← hfs]
    refine List.filter_congr (fun x _ => ?_)
    rw [keepCard_eq_all, keepCard_eq_all, all_of_perm hperm.symm]

/-- Witness for C1: a concrete filter set (tag `work` plus has-due-date)
over a concrete two-card source. -/
theorem C1_witness :
    gtdFilters (fun _ _ => true) (some "work") none none false true ≠ [] ∧
    ((∀ c, c ∈ get_cards (fun _ _ => true) [sampleCard, dueWorkCard]
             (some "work") none none false true ↔
           ∀ f ∈ gtdFilters (fun _ _ => true) (some "work") none none false true,
             c ∈ [sampleCard, dueWorkCard].filter f) ∧
     (∀ fs₂, (gtdFilters (fun _ _ => true) (some "work") none none false true).Perm fs₂ →
        [sampleCard, dueWorkCard].filter (keepCard fs₂) =
          get_cards (fun _ _ => true) [sampleCard, dueWorkCard]
            (some "work") none none false true)) :=
  ⟨by simp [gtdFilters, magic_value],
   C1_get_cards_is_filter_intersection (fun _ _ => true) (some "work") none none
     false true [sampleCard, dueWorkCard] (by simp [gtdFilters, magic_value])⟩

/-- C10: passing the literal string `NOTAG` (which is also what the
`--no-tag` flag is translated into by `perform_command`) as the tag filter
makes `get_cards` select exactly the cards with no tags at all; a card that
carries a label actually named `NOTAG` is never selected. -/
theorem C10_notag_selects_untagged
    (regexSearch : String → String → Bool) (source : List Card) :
    (∀ tag_arg, perform_command_tag true tag_arg = some "NOTAG") ∧
    (∀ c, c ∈ get_cards regexSearch source (some "NOTAG") none none false false ↔
          c ∈ source ∧ c.list_labels = []) ∧
    get_cards regexSearch [notagLabelCard] (some "NOTAG") none none false false = [] := by
  refine ⟨fun tag_arg => rfl, fun c => ?_, rfl⟩
  simp [get_cards, gtdFilters, magic_value, keepCard_eq_all, List.mem_filter,
    List.isEmpty_iff]

/-- C2 counterexample: a review session over one card in which the user
enters `Q` terminates with process exit code 1, not 0.  (`Q` raises
`GTDException`; the `__main__` guard maps `GTDException` to `sys.exit(1)`,
reserving exit code 0 for normal completion and `KeyboardInterrupt`.) -/
theorem C2_counterexample :
    review_session_exit_code (fun _ _ => []) [sampleCard] [Cmd.Q] = 1 ∧
    review_session_exit_code (fun _ _ => []) [sampleCard] [Cmd.Q] ≠ 0 :=
  ⟨rfl, by decide⟩

/-- C2 amended: entering `quit` in the per-card review menu raises the
session-abort exception, which the top-level guard reports as an error and
maps to process exit code 1 — the same code as an unrecoverable session
error, and not the 0 of a user-initiated interrupt or normal
completion. -/
theorem C2_quit_exits_with_code_one (sub : Cmd → Card → List RemoteCall)
    (card : Card) (cards : List Card) (rest : List Cmd) :
    review_session_exit_code sub (card :: cards) (Cmd.Q :: rest) = 1 ∧
    process_exit_code MainTermination.keyboardInterrupt = 0 ∧
    process_exit_code MainTermination.normal = 0 ∧
    process_exit_code MainTermination.gtdException = 1 :=
  ⟨rfl, rfl, rfl, rfl⟩

/-- C3: the `open-attachment` (`O`) command never opens anything: for every
card — with or without attachments — it prints
`This card does not have an attachment!`.  The guard `'link' not in header`
is always true because the header entry reads `Open attachment`, so the
browser-opening arm of the branch is unreachable.  In particular the
concrete card with one attachment gets the error message, contradicting
the menu entry the code itself displays for it. -/
theorem C3_open_attachment_branch_dead :
    attachmentCard.attachments ≠ [] ∧
    open_attachment_branch attachmentCard =
      .errorMessage "This card does not have an attachment!" ∧
    ∀ c : Card, open_attachment_branch c =
      .errorMessage "This card does not have an attachment!" := by
  have h1 : strIn "link".data (review_header true).data = false := by decide
  have h2 : strIn "link".data (review_header false).data = false := by decide
  refine ⟨by decide, ?_, ?_⟩
  · show open_attachment_branch attachmentCard = _
    unfold open_attachment_branch
    simp [attachmentCard, h1]
  · intro c
    unfold open_attachment_branch
    cases hA : c.attachments.isEmpty <;> simp [hA, h1, h2]

/-- C5 counterexample: the JSON path of `Display.show_cards`
(`todo/display.py`) serialises a single card as a one-element JSON array,
never as a single JSON object. -/
theorem C5_counterexample :
    show_cards (fun _ => 0) 0 true [sampleCard] [] =
      .jsonOut (.array [sampleCard]) ∧
    ∀ c, show_cards (fun _ => 0) 0 true [sampleCard] [] ≠ .jsonOut (.single c) := by
  refine ⟨rfl, fun c => ?_⟩
  simp [show_cards]

/-- C5 amended: `JSONDisplay.__exit__` (`gtd.py`) serialises exactly one
collected card as a single JSON object and two or more as a JSON array of
objects, while the JSON path of `Display.show_cards` (`todo/display.py`)
always serialises the card sequence as a JSON array, even for exactly one
card. -/
theorem C5_single_card_export_shape (c c₂ : Card) (cs items : List Card)
    (width : List String → Nat) (maxwidth : Nat) :
    jsonDisplay_exit [c] = .single c ∧
    jsonDisplay_exit (c :: c₂ :: cs) = .array (c :: c₂ :: cs) ∧
    show_cards width maxwidth true items [] = .jsonOut (.array items) := by
  refine ⟨?_, ?_, rfl⟩
  · simp [jsonDisplay_exit]
  · simp [jsonDisplay_exit]

/-- C9: from the `displayed` state, `S` (skip) ends the per-card loop with
no remote mutation call; `D` (delete) issues exactly one delete call for
that card and ends the loop; and `Q` (quit) aborts the whole remaining
batch, so no later card is reviewed and no further call is issued. -/
theorem C9_review_state_machine (sub : Cmd → Card → List RemoteCall)
    (card : Card) (cards : List Card) (rest : List Cmd) :
    review_card sub card (Cmd.S :: rest) = ([], ReviewOutcome.cardDone, rest) ∧
    review_card sub card (Cmd.D :: rest) =
      ([RemoteCall.delete card.id], ReviewOutcome.cardDone, rest) ∧
    review_list sub (card :: cards) (Cmd.Q :: rest) = ([], BatchOutcome.aborted) :=
  ⟨rfl, rfl, rfl⟩

/-- C4: when the default table over a non-empty card sequence is at least
as wide as the terminal and no explicit column subset was given,
`show_cards` prints the table produced by dropping the first `k ≥ 1`
columns of the fixed list `desc, id, board, url, activity, list` — each
intermediate table still being too wide — where either the resulting table
fits or the list is exhausted; every column outside that list (in
particular `name`) survives. -/
theorem C4_columns_dropped_in_fixed_order
    (width : List String → Nat) (maxwidth : Nat) (cards : List Card)
    (hcards : cards ≠ [])
    (hwide : maxwidth ≤ width build_fields_order) :
    ∃ k, 1 ≤ k ∧ k ≤ to_remove_order.length ∧
      show_cards width maxwidth false cards [] =
        .tableOut (erase_fields build_fields_order (to_remove_order.take k)) ∧
      (∀ j, j < k →
        maxwidth ≤ width (erase_fields build_fields_order (to_remove_order.take j))) ∧
      (k < to_remove_order.length →
        width (erase_fields build_fields_order (to_remove_order.take k)) < maxwidth) ∧
      (∀ x ∈ build_fields_order, x ∉ to_remove_order →
        x ∈ erase_fields build_fields_order (to_remove_order.take k)) := by
  obtain ⟨k, hk, heq, hge, hlt⟩ :=
    resize_fields_spec width maxwidth build_fields_order to_remove_order
  have hshow : show_cards width maxwidth false cards [] =
      .tableOut (resize_fields width maxwidth build_fields_order to_remove_order) := by
    simp [show_cards, List.isEmpty_iff, hcards]
  have hk1 : 1 ≤ k := by
    rcases Nat.eq_zero_or_pos k with h0 | h1
    · subst h0
      have hfit := hlt (by simp [to_remove_order])
      simp only [List.take_zero, erase_fields, List.foldl_nil] at hfit
      omega
    · exact h1
  refine ⟨k, hk1, hk, by rw [hshow, heq], hge, hlt, ?_⟩
  intro x hx hxrem
  exact mem_erase_fields hx fun hmem => hxrem (List.take_subset _ _ hmem)

/-- Witness for C4: a concrete width function (ten units per column) and a
terminal 75 units wide over a one-card sequence; the loop drops `desc` and
`id` and stops. -/
theorem C4_witness :
    ([sampleCard] : List Card) ≠ [] ∧
    75 ≤ (fun fs : List String => 10 * fs.length) build_fields_order ∧
    (∃ k, 1 ≤ k ∧ k ≤ to_remove_order.length ∧
      show_cards (fun fs : List String => 10 * fs.length) 75 false [sampleCard] [] =
        .tableOut (erase_fields build_fields_order (to_remove_order.take k)) ∧
      (∀ j, j < k →
        75 ≤ (fun fs : List String => 10 * fs.length)
              (erase_fields build_fields_order (to_remove_order.take j))) ∧
      (k < to_remove_order.length →
        (fun fs : List String => 10 * fs.length)
          (erase_fields build_fields_order (to_remove_order.take k)) < 75) ∧
      (∀ x ∈ build_fields_order, x ∉ to_remove_order →
        x ∈ erase_fields build_fields_order (to_remove_order.take k))) :=
  ⟨by simp, by decide,
   C4_columns_dropped_in_fixed_order (fun fs : List String => 10 * fs.length)
     75 [sampleCard] (by simp) (by decide)⟩

/-- C6: in the single-card detail view, for a card with a due date whose
timestamp is comparable with the current (timezone-aware) instant, the
remaining-time line is red exactly when the difference is negative, yellow
exactly when it is non-negative and under two weeks, and green exactly
when it is two weeks or more; if the subtraction raises `TypeError` (a
naive due timestamp against the aware now), the line is silently
omitted. -/
theorem C6_due_color_classification (card : Card) (dd now : PyDatetime)
    (hdue : card.due = some dd) :
    (dd.aware ≠ now.aware → show_remaining card now = .omitted) ∧
    (dd.aware = now.aware →
      ∃ col, show_remaining card now = .shown col (dd.seconds - now.seconds) ∧
        ((col = DueColor.red) ↔ dd.seconds - now.seconds < 0) ∧
        ((col = DueColor.yellow) ↔
          0 ≤ dd.seconds - now.seconds ∧
          dd.seconds - now.seconds < two_weeks_seconds) ∧
        ((col = DueColor.green) ↔
          two_weeks_seconds ≤ dd.seconds - now.seconds)) := by
  constructor
  · intro hne
    simp [show_remaining, hdue, pyDatetimeSub, hne]
  · intro haw
    have hsub : pyDatetimeSub dd now = .ok (dd.seconds - now.seconds) := by
      simp [pyDatetimeSub, haw]
    have h2w : (0 : Int) < two_weeks_seconds := by norm_num [two_weeks_seconds]
    refine ⟨if dd.seconds - now.seconds < 0 then DueColor.red
            else if dd.seconds - now.seconds < two_weeks_seconds then DueColor.yellow
            else DueColor.green,
      by simp [show_remaining, hdue, hsub], ?_, ?_, ?_⟩ <;>
      by_cases h1 : dd.seconds - now.seconds < 0 <;>
      by_cases h2 : dd.seconds - now.seconds < two_weeks_seconds <;>
        simp [h1, h2] <;> omega

/-- Witness for C6: a card due five seconds in the past against a
reference now; the theorem classifies its remaining-time line. -/
theorem C6_witness :
    dueWorkCard.due = some { aware := true, seconds := -5 } ∧
    ((({ aware := true, seconds := -5 } : PyDatetime).aware ≠
        ({ aware := true, seconds := 0 } : PyDatetime).aware →
      show_remaining dueWorkCard { aware := true, seconds := 0 } = .omitted) ∧
     (({ aware := true, seconds := -5 } : PyDatetime).aware =
        ({ aware := true, seconds := 0 } : PyDatetime).aware →
      ∃ col, show_remaining dueWorkCard { aware := true, seconds := 0 } =
          .shown col ((-5 : Int) - 0) ∧
        ((col = DueColor.red) ↔ (-5 : Int) - 0 < 0) ∧
        ((col = DueColor.yellow) ↔
          0 ≤ (-5 : Int) - 0 ∧ (-5 : Int) - 0 < two_weeks_seconds) ∧
        ((col = DueColor.green) ↔ two_weeks_seconds ≤ (-5 : Int) - 0))) :=
  ⟨rfl, C6_due_color_classification dueWorkCard { aware := true, seconds := -5 }
    { aware := true, seconds := 0 } rfl⟩

/-- C7 counterexample: with the options `Inbox`, `Doing`, `Done` (bound to
`a`, `s`, `d`), the unassigned keystroke `z` makes `quickmove` evaluate
`int(None)`, raising `TypeError`: the call crashes instead of returning a
missing-result value to the caller. -/
theorem C7_counterexample :
    quickmove ["Inbox", "Doing", "Done"] 'z' =
      .error "TypeError: int() argument must not be None" ∧
    ∀ o, quickmove ["Inbox", "Doing", "Done"] 'z' ≠ Except.ok o := by
  refine ⟨rfl, fun o h => ?_⟩
  rw [show quickmove ["Inbox", "Doing", "Done"] 'z' =
      .error "TypeError: int() argument must not be None" from rfl] at h
  exact Except.noConfusion h

/-- C7 amended: for every option list that fits the key alphabet and every
keystroke assigned to no option, the dict lookup yields the missing-value
default, and `quickmove` then crashes with `TypeError` when converting it
to an index — the keystroke is not handed back to the caller as a
missing-result value. -/
theorem C7_undefined_keystroke_raises (options : List String) (req : Char)
    (hlen : options.length ≤ all_keys.length)
    (hreq : ∀ i, i < options.length → all_keys.getD i ' ' ≠ req) :
    quickmove_lookup options.length req = none ∧
    quickmove options req =
      .error "TypeError: int() argument must not be None" := by
  have hnone := quickmove_lookup_eq_none req options.length hreq
  refine ⟨hnone, ?_⟩
  unfold quickmove
  rw [if_neg (by omega), hnone]

/-- Witness for C7: the three options of the counterexample with the
unassigned keystroke `x`. -/
theorem C7_witness :
    (["Inbox", "Doing", "Done"] : List String).length ≤ all_keys.length ∧
    (∀ i, i < (["Inbox", "Doing", "Done"] : List String).length →
      all_keys.getD i ' ' ≠ 'x') ∧
    (quickmove_lookup (["Inbox", "Doing", "Done"] : List String).length 'x' = none ∧
     quickmove ["Inbox", "Doing", "Done"] 'x' =
       .error "TypeError: int() argument must not be None") :=
  ⟨by decide, by decide,
   C7_undefined_keystroke_raises ["Inbox", "Doing", "Done"] 'x'
     (by decide) (by decide)⟩

/-- C8 counterexample: the input `99/99/9999` matches the `DD/MM/YYYY`
shape regex, so the prompt loop accepts it; `datetime(9999, 99, 99, ...)`
then raises an uncaught `ValueError` and the process aborts — the loop
never re-prompts to reach the valid `01/05/2017` that follows. -/
theorem C8_counterexample :
    set_due_date ["99/99/9999", "01/05/2017"] = SetDueResult.valueError ∧
    set_due_date ["99/99/9999", "01/05/2017"] ≠ SetDueResult.ok 2017 5 1 :=
  ⟨rfl, by decide⟩

/-- C8 amended: `set_due_date` re-prompts on every input failing the
`DD/MM/YYYY` shape regex; the first shape-matching input ends the loop,
and the date construction then succeeds exactly when it denotes a valid
calendar date — otherwise the uncaught `ValueError` aborts the process
instead of re-prompting.  A stream of only shape-failing inputs keeps
re-prompting forever. -/
theorem C8_due_date_reprompt (pre : List String) (s : String)
    (rest : List String)
    (hpre : ∀ x ∈ pre, matches_due_regex x = false)
    (hs : matches_due_regex s = true) :
    set_due_date (pre ++ s :: rest) =
      (if datetime_ctor_valid (date_args_of s).1 (date_args_of s).2.1
            (date_args_of s).2.2
       then SetDueResult.ok (date_args_of s).1 (date_args_of s).2.1
            (date_args_of s).2.2
       else SetDueResult.valueError) ∧
    (∀ inputs : List String, (∀ x ∈ inputs, matches_due_regex x = false) →
      set_due_date inputs = SetDueResult.ranOutOfInput) := by
  constructor
  · rw [set_due_date_skips pre (s :: rest) hpre]
    simp [set_due_date, hs]
  · intro inputs
    induction inputs with
    | nil => intro _; rfl
    | cons i is ih =>
      intro hall
      have hi := hall i (by simp)
      simp only [set_due_date, hi, Bool.false_eq_true, if_false]
      exact ih fun x hx => hall x (by simp [hx])

/-- Witness for C8: two malformed prompts (`May 1`, `1/5/2017`) followed by
the shape-correct and valid `01/05/2017`. -/
theorem C8_witness :
    (∀ x ∈ (["May 1", "1/5/2017"] : List String), matches_due_regex x = false) ∧
    matches_due_regex "01/05/2017" = true ∧
    (set_due_date (["May 1", "1/5/2017"] ++ "01/05/2017" :: []) =
      (if datetime_ctor_valid (date_args_of "01/05/2017").1
            (date_args_of "01/05/2017").2.1 (date_args_of "01/05/2017").2.2
       then SetDueResult.ok (date_args_of "01/05/2017").1
            (date_args_of "01/05/2017").2.1 (date_args_of "01/05/2017").2.2
       else SetDueResult.valueError) ∧
     (∀ inputs : List String, (∀ x ∈ inputs, matches_due_regex x = false) →
       set_due_date inputs = SetDueResult.ranOutOfInput)) :=
  ⟨by decide, by decide,
   C8_due_date_reprompt ["May 1", "1/5/2017"] "01/05/2017" []
     (by decide) (by decide)⟩

end Gtd
